import Mathlib

/-!
Shallow embedding of the movie CRUD service (package `data` plus its JSON
codec and validator), together with proofs of the specification claims.

The relational `movies` table is modelled as a list of rows (`DB`); each
SQL statement of the source is embedded as a pure function on that state.
Driver-level failures (connectivity, timeout) are made explicit through an
`Option String` oracle: `some e` means the round trip to storage fails
with cause `e`, `none` means the statement executes against the table.
-/

/-- Custom `Runtime` type, declared in the source as `type Runtime int32`. -/
abbrev Runtime := Int

/-- The `Movie` entity of the source (`type Movie struct`), with its seven
fields. `CreatedAt` is an opaque timestamp; `Genres` is `Option (List String)`
so that a Go `nil` slice (`none`) is distinguished from an empty one. -/
structure Movie where
  ID : Int
  CreatedAt : Nat
  Title : String
  Year : Int
  Runtime : Runtime
  Genres : Option (List String)
  Version : Int
deriving DecidableEq, Repr

/-- Errors surfaced by the repository. `recordNotFound` embeds the source's
`ErrRecordNotFound`; `generic` carries an underlying storage cause.
Modelled from the spec: the declaration of `ErrEditConflict` is not among
the provided source files (only its use in `Update` is); the spec describes
it as an error distinct from `RecordNotFound` and from generic storage
errors, so it is a separate constructor. -/
inductive MovieError where
  | recordNotFound
  | editConflict
  | generic (cause : String)
deriving DecidableEq, Repr

/-- `Runtime.MarshalJSON`: produces `fmt.Sprintf("%d mins", r)` wrapped in
double quotes by `strconv.Quote` (which escapes nothing on this alphabet of
digits, minus sign, space and letters). -/
def Runtime.MarshalJSON (r : Runtime) : String :=
  "\"" ++ (toString r ++ " mins") ++ "\""

/-- Decimal-digit accumulator for the decoder: fails on a non-digit. -/
def parseDigitsAux (acc : Nat) : List Char → Option Nat
  | [] => some acc
  | c :: cs => if c.isDigit then parseDigitsAux (acc * 10 + (c.toNat - 48)) cs else none

/-- Parses a non-empty run of decimal digits. -/
def parseDigits : List Char → Option Nat
  | [] => none
  | l => parseDigitsAux 0 l

/-- Parses a base-10 integer with an optional leading minus sign. -/
def parseInt (l : List Char) : Option Int :=
  match l with
  | '-' :: rest => (parseDigits rest).map (fun n => -(n : Int))
  | _ => (parseDigits l).map (fun n => (n : Int))

/-- Removes `suf` from the end of `l`, or fails when `l` does not end in it. -/
def dropSuffix (suf l : List Char) : Option (List Char) :=
  if l.reverse.take suf.length = suf.reverse then
    some (l.take (l.length - suf.length))
  else
    none

/-- Modelled from the spec: `Runtime.UnmarshalJSON` is not among the provided
source files (the handlers decode into a `data.Runtime`, so it exists in the
repository). The spec says decoding the wire form, the quoted string
`"<n> mins"`, reconstructs the integer `n`: strip the surrounding quotes and
the literal ` mins` suffix, then parse the remaining integer. -/
def Runtime.UnmarshalJSON (s : String) : Option Int :=
  match s.data with
  | '"' :: rest =>
    match dropSuffix [' ', 'm', 'i', 'n', 's', '"'] rest with
    | some numPart => parseInt numPart
    | none => none
  | _ => none

/-- Modelled from the spec: the `validator` package is not among the provided
source files (only its callers are). Per the spec it accumulates named field
errors: a map from field name to the first recorded message, here a list of
`(field, message)` pairs with at most one entry per field. -/
structure Validator where
  Errors : List (String × String)
deriving DecidableEq, Repr

/-- Modelled from the spec: fresh validator with an empty accumulator. -/
def Validator.New : Validator := ⟨[]⟩

/-- Whether a message has been recorded under `field`. -/
def Validator.hasError (v : Validator) (field : String) : Bool :=
  v.Errors.any (fun p => p.1 == field)

/-- Modelled from the spec: records `message` under `field`; the first
message per field wins, a later message for an already-failed field does
not overwrite. -/
def Validator.AddError (v : Validator) (field message : String) : Validator :=
  if v.hasError field then v else ⟨v.Errors ++ [(field, message)]⟩

/-- Modelled from the spec: `Check(condition, field, message)` records
`message` under `field` when the condition is false. -/
def Validator.Check (v : Validator) (ok : Bool) (field message : String) : Validator :=
  if ok then v else v.AddError field message

/-- Modelled from the spec: `Valid()` is true iff no field has a recorded
message. -/
def Validator.Valid (v : Validator) : Bool :=
  v.Errors.isEmpty

/-- Modelled from the spec: `Unique(sequence)` is true iff all elements are
pairwise distinct. -/
def Validator.Unique (values : List String) : Bool :=
  values.eraseDups.length == values.length

/-- `ValidateMovie` from the source: eleven `Check` calls run in sequence,
none conditional on another. `currentYear` makes the source's
`time.Now().Year()` explicit; `len` on a string is its byte length. -/
def ValidateMovie (v : Validator) (movie : Movie) (currentYear : Int) : Validator :=
  ((((((((((v.Check (movie.Title != "") "title" "must be provided").Check
    (decide (movie.Title.utf8ByteSize ≤ 500)) "title" "must not be more than 500 bytes long").Check
    (movie.Year != 0) "year" "must be provided").Check
    (decide (movie.Year ≥ 1888)) "year" "must be greater than 1888").Check
    (decide (movie.Year ≤ currentYear)) "year" "must not be in the future").Check
    (movie.Runtime != 0) "runtime" "must be provided").Check
    (decide (movie.Runtime > 0)) "runtime" "must be a positive integer").Check
    movie.Genres.isSome "genres" "must be provided").Check
    (decide ((movie.Genres.getD []).length ≥ 1)) "genres" "must contain at least 1 genre").Check
    (decide ((movie.Genres.getD []).length ≤ 5)) "genres" "must not contain more than 5 genres").Check
    (Validator.Unique (movie.Genres.getD [])) "genres" "must not contain dupliate values"

/-- The `movies` table: one row per stored movie. -/
abbrev DB := List Movie

/-- `MovieModel.Get`: short-circuits with `ErrRecordNotFound` for `id < 1`
before any storage round trip; otherwise runs
`SELECT ... FROM movies WHERE id = $1` and scans the single row, mapping
`sql.ErrNoRows` to `ErrRecordNotFound` and any other scan error to the
generic default branch. `fail` is the driver-failure oracle: it is consulted
only when the query is actually sent to storage. -/
def MovieModel.Get (db : DB) (id : Int) (fail : Option String) :
    Except MovieError Movie :=
  if id < 1 then
    .error .recordNotFound
  else
    match fail with
    | some e => .error (.generic e)
    | none =>
      match db.find? (fun r => r.ID == id) with
      | none => .error .recordNotFound
      | some r => .ok r

/-- `MovieModel.Update`: runs
`UPDATE movies SET title=$1, year=$2, runtime=$3, genres=$4,
version = version + 1 WHERE id = $5 AND version = $6 RETURNING version`
and scans the returned version back into the caller's movie. No matching
row makes `Scan` yield `sql.ErrNoRows`, mapped to `ErrEditConflict`; any
other error goes to the generic default branch. There is no `id < 1`
short-circuit, so the statement always reaches storage. Returns the error
(if any), the caller's movie after `Scan`, and the table after the
statement. -/
def MovieModel.Update (db : DB) (movie : Movie) (fail : Option String) :
    Option MovieError × Movie × DB :=
  match fail with
  | some e => (some (.generic e), movie, db)
  | none =>
    match db.find? (fun r => r.ID == movie.ID && r.Version == movie.Version) with
    | none => (some .editConflict, movie, db)
    | some r =>
      (none,
       { movie with Version := r.Version + 1 },
       db.map (fun row =>
         if row.ID == movie.ID && row.Version == movie.Version then
           { row with
             Title := movie.Title
             Year := movie.Year
             Runtime := movie.Runtime
             Genres := movie.Genres
             Version := row.Version + 1 }
         else row))

/-- `MovieModel.Delete`: short-circuits with `ErrRecordNotFound` for
`id < 1`; otherwise runs `DELETE FROM movies WHERE id = $1`, and returns
`ErrRecordNotFound` when the affected-row count is zero. Returns the error
(if any) and the table after the statement. -/
def MovieModel.Delete (db : DB) (id : Int) (fail : Option String) :
    Option MovieError × DB :=
  if id < 1 then
    (some .recordNotFound, db)
  else
    match fail with
    | some e => (some (.generic e), db)
    | none =>
      let remaining := db.filter (fun r => !(r.ID == id))
      let rowsAffected := db.length - remaining.length
      if rowsAffected == 0 then
        (some .recordNotFound, remaining)
      else
        (none, remaining)

/-- `ORDER BY id` of the `GetAll` query: the rows sorted ascending by `ID`. -/
def orderById (db : DB) : List Movie :=
  List.insertionSort (fun a b => a.ID ≤ b.ID) db

/-- Modelled from the spec: the `Filters` type is not among the provided
source files; the spec calls it `pagingOptions` and notes `GetAll` accepts
but entirely ignores it. -/
structure Filters where
  Page : Int
  PageSize : Int
  SortCol : String

/-- Result slice of `GetAll`: a Go slice, which can be `nil` or non-`nil`
independently of being empty. -/
structure GoSlice where
  isNil : Bool
  elems : List Movie
deriving DecidableEq, Repr

/-- `MovieModel.GetAll`: runs
`SELECT ... FROM movies ORDER BY id` with no WHERE clause, LIMIT or OFFSET
— the `title`, `genres` and `filters` arguments are accepted but unused.
It initialises a non-nil empty slice and appends every scanned row. -/
def MovieModel.GetAll (db : DB) (title : String) (genres : Option (List String))
    (filters : Filters) (fail : Option String) : Except MovieError GoSlice :=
  match fail with
  | some e => .error (.generic e)
  | none => .ok ⟨false, orderById db⟩

/-- `MockMovieModel.Insert`: returns `nil` and leaves the movie untouched. -/
def MockMovieModel.Insert (movie : Movie) : Option MovieError × Movie :=
  (none, movie)

/-- `MockMovieModel.Get`: returns `nil, nil` for every id. -/
def MockMovieModel.Get (id : Int) : Option Movie × Option MovieError :=
  (none, none)

/-- `MockMovieModel.Update`: returns `nil` and leaves the movie untouched. -/
def MockMovieModel.Update (movie : Movie) : Option MovieError × Movie :=
  (none, movie)

/-- `MockMovieModel.Delete`: returns `nil` for every id. -/
def MockMovieModel.Delete (id : Int) : Option MovieError :=
  none

/-! ## Validator lemmas -/

/-- `AddError` never removes a recorded field. -/
theorem hasError_AddError_mono {v : Validator} {g msg : String} (f : String)
    (h : v.hasError f = true) : (v.AddError g msg).hasError f = true := by
  unfold Validator.AddError
  split
  · exact h
  · unfold Validator.hasError at h ⊢
    simp [List.any_append, h]

/-- `Check` never removes a recorded field. -/
theorem hasError_Check_mono {v : Validator} {c : Bool} {g msg : String} (f : String)
    (h : v.hasError f = true) : (v.Check c g msg).hasError f = true := by
  unfold Validator.Check
  split
  · exact h
  · exact hasError_AddError_mono f h

/-- A failed `Check` leaves the field recorded, whether or not a message for
it was already present. -/
theorem hasError_Check_false (v : Validator) (f msg : String) :
    (v.Check false f msg).hasError f = true := by
  unfold Validator.Check Validator.AddError
  simp only [Bool.false_eq_true, if_false]
  split
  · assumption
  · simp [Validator.hasError]

/-! ## Claims -/

/-- C6: `ValidateMovie` runs all of its checks unconditionally with no
short-circuiting, so a movie with an empty title, a zero year and nil
genres simultaneously gets an error recorded for each of those three
fields — not only the first one encountered — whatever its other fields
and whatever the incoming validator state. -/
theorem validateMovie_reports_every_violated_field (v : Validator) (m : Movie)
    (currentYear : Int)
    (h1 : m.Title = "") (h2 : m.Year = 0) (h3 : m.Genres = none) :
    (ValidateMovie v m currentYear).hasError "title" = true ∧
    (ValidateMovie v m currentYear).hasError "year" = true ∧
    (ValidateMovie v m currentYear).hasError "genres" = true := by
  unfold ValidateMovie
  rw [h1, h2, h3]
  refine ⟨?_, ?_, ?_⟩
  · apply hasError_Check_mono
    apply hasError_Check_mono
    apply hasError_Check_mono
    apply hasError_Check_mono
    apply hasError_Check_mono
    apply hasError_Check_mono
    apply hasError_Check_mono
    apply hasError_Check_mono
    apply hasError_Check_mono
    apply hasError_Check_mono
    exact hasError_Check_false v "title" "must be provided"
  · apply hasError_Check_mono
    apply hasError_Check_mono
    apply hasError_Check_mono
    apply hasError_Check_mono
    apply hasError_Check_mono
    apply hasError_Check_mono
    apply hasError_Check_mono
    apply hasError_Check_mono
    exact hasError_Check_false _ "year" "must be provided"
  · apply hasError_Check_mono
    apply hasError_Check_mono
    apply hasError_Check_mono
    exact hasError_Check_false _ "genres" "must be provided"

/-- C6 witness: a concrete movie with empty title, zero year and nil genres
has all three fields recorded by `ValidateMovie`. -/
theorem validateMovie_reports_every_violated_field_witness :
    (ValidateMovie Validator.New ⟨1, 0, "", 0, 102, none, 1⟩ 2026).hasError "title" = true ∧
    (ValidateMovie Validator.New ⟨1, 0, "", 0, 102, none, 1⟩ 2026).hasError "year" = true ∧
    (ValidateMovie Validator.New ⟨1, 0, "", 0, 102, none, 1⟩ 2026).hasError "genres" = true :=
  validateMovie_reports_every_violated_field Validator.New ⟨1, 0, "", 0, 102, none, 1⟩ 2026
    rfl rfl rfl

/-- C7: encoding runtime 102 produces the literal JSON string
`"102 mins"` — quotes and ` mins` suffix included — and decoding that wire
form reconstructs the integer 102, so decode after encode is the identity
on this runtime. -/
theorem runtime_roundTrip_102 :
    Runtime.MarshalJSON 102 = "\"102 mins\"" ∧
    Runtime.UnmarshalJSON (Runtime.MarshalJSON 102) = some 102 :=
  ⟨rfl, rfl⟩

/-- C1: every successful `MovieModel.Update` writes the caller-supplied
version plus one back into the caller's movie, and the table after the
statement holds a row with the movie's id whose stored version equals that
in-memory version. -/
theorem update_increments_version (db : DB) (m m2 : Movie) (db2 : DB)
    (h : MovieModel.Update db m none = (none, m2, db2)) :
    m2.Version = m.Version + 1 ∧
    ∃ r ∈ db2, r.ID = m.ID ∧ r.Version = m2.Version := by
  unfold MovieModel.Update at h
  cases hf : db.find? (fun r => r.ID == m.ID && r.Version == m.Version) with
  | none =>
    rw [hf] at h
    simp at h
  | some r =>
    rw [hf] at h
    simp only [Prod.mk.injEq] at h
    obtain ⟨-, hm2, hdb2⟩ := h
    have hp := List.find?_some hf
    have hmem := List.mem_of_find?_eq_some hf
    simp only [Bool.and_eq_true, beq_iff_eq] at hp
    obtain ⟨hid, hver⟩ := hp
    subst hm2 hdb2
    refine ⟨by simp [hver], ?_⟩
    refine ⟨{ r with
      Title := m.Title, Year := m.Year, Runtime := m.Runtime,
      Genres := m.Genres, Version := r.Version + 1 }, ?_, by simpa using hid, rfl⟩
    have : (fun row =>
        if row.ID == m.ID && row.Version == m.Version then
          { row with
            Title := m.Title, Year := m.Year, Runtime := m.Runtime,
            Genres := m.Genres, Version := row.Version + 1 }
        else row) r =
        { r with
          Title := m.Title, Year := m.Year, Runtime := m.Runtime,
          Genres := m.Genres, Version := r.Version + 1 } := by
      simp [hid, hver]
    exact this ▸ List.mem_map_of_mem _ hmem

/-- C1 witness: updating a one-row table at the stored version succeeds and
advances both copies of the version from 3 to 4. -/
theorem update_increments_version_witness :
    (⟨1, 5, "U", 2001, 101, some ["war"], 4⟩ : Movie).Version =
      (⟨1, 5, "U", 2001, 101, some ["war"], 3⟩ : Movie).Version + 1 ∧
    ∃ r ∈ [(⟨1, 7, "U", 2001, 101, some ["war"], 4⟩ : Movie)],
      r.ID = (⟨1, 5, "U", 2001, 101, some ["war"], 3⟩ : Movie).ID ∧
      r.Version = (⟨1, 5, "U", 2001, 101, some ["war"], 4⟩ : Movie).Version :=
  update_increments_version
    [⟨1, 7, "T", 2000, 100, some ["drama"], 3⟩]
    ⟨1, 5, "U", 2001, 101, some ["war"], 3⟩
    ⟨1, 5, "U", 2001, 101, some ["war"], 4⟩
    [⟨1, 7, "U", 2001, 101, some ["war"], 4⟩]
    (by decide)

/-- C2: when no stored row carries both the movie's id and the
caller-supplied version, `MovieModel.Update` fails with `ErrEditConflict` —
an error distinct from `ErrRecordNotFound` and from every generic storage
error — leaves the caller's movie untouched and modifies no row. -/
theorem update_conflict_when_no_match (db : DB) (m : Movie)
    (h : ∀ r ∈ db, ¬(r.ID = m.ID ∧ r.Version = m.Version)) :
    MovieModel.Update db m none = (some .editConflict, m, db) ∧
    MovieError.editConflict ≠ MovieError.recordNotFound ∧
    ∀ e, MovieError.editConflict ≠ MovieError.generic e := by
  have hf : db.find? (fun r => r.ID == m.ID && r.Version == m.Version) = none := by
    rw [List.find?_eq_none]
    intro x hx
    simpa [Bool.and_eq_true, beq_iff_eq] using h x hx
  exact ⟨by unfold MovieModel.Update; rw [hf], by decide, fun e he => MovieError.noConfusion he⟩

/-- C2 witness: against a one-row table whose row has version 4, an update
carrying version 3 fails with `editConflict` and changes nothing. -/
theorem update_conflict_when_no_match_witness :
    MovieModel.Update [⟨1, 7, "T", 2000, 100, some ["drama"], 4⟩]
      ⟨1, 5, "U", 2001, 101, some ["war"], 3⟩ none =
      (some .editConflict, ⟨1, 5, "U", 2001, 101, some ["war"], 3⟩,
        [⟨1, 7, "T", 2000, 100, some ["drama"], 4⟩]) ∧
    MovieError.editConflict ≠ MovieError.recordNotFound ∧
    ∀ e, MovieError.editConflict ≠ MovieError.generic e :=
  update_conflict_when_no_match
    [⟨1, 7, "T", 2000, 100, some ["drama"], 4⟩]
    ⟨1, 5, "U", 2001, 101, some ["war"], 3⟩
    (by decide)

/-- C3: two updates against the same id from the same observed version —
each a single atomic statement, so every interleaving is one of the two
serial orders, and the orders are covered symmetrically by the
quantification over `u1, u2` — resolve with exactly one winner: the first
succeeds and advances the version by 1, its written field values survive in
the table, and the second fails with `editConflict` while changing nothing,
so neither write is lost. -/
theorem update_cas_exactly_one_winner (db : DB) (u1 u2 : Movie)
    (hid : u2.ID = u1.ID) (hver : u2.Version = u1.Version)
    (hex : ∃ r ∈ db, r.ID = u1.ID ∧ r.Version = u1.Version) :
    ∃ m1 db1, MovieModel.Update db u1 none = (none, m1, db1) ∧
      m1.Version = u1.Version + 1 ∧
      (∃ r ∈ db1, r.ID = u1.ID ∧ r.Version = u1.Version + 1 ∧
        r.Title = u1.Title ∧ r.Year = u1.Year ∧ r.Runtime = u1.Runtime ∧
        r.Genres = u1.Genres) ∧
      MovieModel.Update db1 u2 none = (some .editConflict, u2, db1) := by
  obtain ⟨r, hr, hrid, hrver⟩ := hex
  have hsome : (db.find? (fun x => x.ID == u1.ID && x.Version == u1.Version)).isSome := by
    rw [List.find?_isSome]
    exact ⟨r, hr, by simp [hrid, hrver]⟩
  obtain ⟨r0, hf⟩ := Option.isSome_iff_exists.mp hsome
  have hp := List.find?_some hf
  have hmem := List.mem_of_find?_eq_some hf
  simp only [Bool.and_eq_true, beq_iff_eq] at hp
  obtain ⟨h0id, h0ver⟩ := hp
  refine ⟨{ u1 with Version := r0.Version + 1 },
    db.map (fun row =>
      if row.ID == u1.ID && row.Version == u1.Version then
        { row with
          Title := u1.Title, Year := u1.Year, Runtime := u1.Runtime,
          Genres := u1.Genres, Version := row.Version + 1 }
      else row), ?_, by simp [h0ver], ?_, ?_⟩
  · unfold MovieModel.Update
    rw [hf]
  · refine ⟨{ r0 with
      Title := u1.Title, Year := u1.Year, Runtime := u1.Runtime,
      Genres := u1.Genres, Version := r0.Version + 1 }, ?_,
      by simpa using h0id, by simp [h0ver], rfl, rfl, rfl, rfl⟩
    have heq : (fun row =>
        if row.ID == u1.ID && row.Version == u1.Version then
          { row with
            Title := u1.Title, Year := u1.Year, Runtime := u1.Runtime,
            Genres := u1.Genres, Version := row.Version + 1 }
        else row) r0 =
        { r0 with
          Title := u1.Title, Year := u1.Year, Runtime := u1.Runtime,
          Genres := u1.Genres, Version := r0.Version + 1 } := by
      simp [h0id, h0ver]
    exact heq ▸ List.mem_map_of_mem _ hmem
  · have hnone : (db.map (fun row =>
        if row.ID == u1.ID && row.Version == u1.Version then
          { row with
            Title := u1.Title, Year := u1.Year, Runtime := u1.Runtime,
            Genres := u1.Genres, Version := row.Version + 1 }
        else row)).find? (fun x => x.ID == u2.ID && x.Version == u2.Version) = none := by
      rw [List.find?_eq_none]
      intro x hx
      obtain ⟨y, hy, rfl⟩ := List.mem_map.mp hx
      by_cases hpy : (y.ID == u1.ID && y.Version == u1.Version) = true
      · simp only [hpy, if_true, hid, hver, Bool.and_eq_true, beq_iff_eq, not_and]
        intro _
        simp only [Bool.and_eq_true, beq_iff_eq] at hpy
        omega
      · simp only [hpy, if_false, hid, hver]
        simpa [Bool.and_eq_true, beq_iff_eq] using hpy
    unfold MovieModel.Update
    rw [hnone]

/-- C3 witness: two concrete updates of the single stored row, both carrying
version 3 — the first wins with version 4 and title `"A"` kept in the table,
the second gets `editConflict`. -/
theorem update_cas_exactly_one_winner_witness :
    ∃ m1 db1, MovieModel.Update [(⟨7, 2, "Old", 1950, 100, some ["drama"], 3⟩ : Movie)]
        ⟨7, 2, "A", 1950, 100, some ["drama"], 3⟩ none = (none, m1, db1) ∧
      m1.Version = (⟨7, 2, "A", 1950, 100, some ["drama"], 3⟩ : Movie).Version + 1 ∧
      (∃ r ∈ db1, r.ID = (⟨7, 2, "A", 1950, 100, some ["drama"], 3⟩ : Movie).ID ∧
        r.Version = (⟨7, 2, "A", 1950, 100, some ["drama"], 3⟩ : Movie).Version + 1 ∧
        r.Title = (⟨7, 2, "A", 1950, 100, some ["drama"], 3⟩ : Movie).Title ∧
        r.Year = (⟨7, 2, "A", 1950, 100, some ["drama"], 3⟩ : Movie).Year ∧
        r.Runtime = (⟨7, 2, "A", 1950, 100, some ["drama"], 3⟩ : Movie).Runtime ∧
        r.Genres = (⟨7, 2, "A", 1950, 100, some ["drama"], 3⟩ : Movie).Genres) ∧
      MovieModel.Update db1 ⟨7, 2, "B", 1950, 100, some ["drama"], 3⟩ none =
        (some .editConflict, ⟨7, 2, "B", 1950, 100, some ["drama"], 3⟩, db1) :=
  update_cas_exactly_one_winner
    [⟨7, 2, "Old", 1950, 100, some ["drama"], 3⟩]
    ⟨7, 2, "A", 1950, 100, some ["drama"], 3⟩
    ⟨7, 2, "B", 1950, 100, some ["drama"], 3⟩
    rfl rfl (by decide)

/-- C4: `MovieModel.Get` fails with `ErrRecordNotFound` for `id < 1` —
before any storage round trip, so even a failing driver is never consulted —
and when no stored row matches the id; otherwise — `id ≥ 1`, a stored row
matches and storage does not fail — it succeeds, and what it returns is
exactly a stored row (hence all seven fields populated from it) whose id is
the one asked for; any other storage failure surfaces as a generic error. -/
theorem get_spec (db : DB) (id : Int) :
    (id < 1 → ∀ fail, MovieModel.Get db id fail = .error .recordNotFound) ∧
    ((∀ r ∈ db, r.ID ≠ id) → MovieModel.Get db id none = .error .recordNotFound) ∧
    (∀ m, MovieModel.Get db id none = .ok m → m ∈ db ∧ m.ID = id) ∧
    (1 ≤ id → ∀ e, MovieModel.Get db id (some e) = .error (.generic e)) ∧
    (1 ≤ id → (∃ r ∈ db, r.ID = id) →
      ∃ m, MovieModel.Get db id none = .ok m ∧ m ∈ db ∧ m.ID = id) := by
  refine ⟨?_, ?_, ?_, ?_, ?_⟩
  · intro hlt fail
    simp [MovieModel.Get, hlt]
  · intro hnone
    have hf : db.find? (fun r => r.ID == id) = none := by
      rw [List.find?_eq_none]
      intro x hx
      simpa using hnone x hx
    unfold MovieModel.Get
    split
    · rfl
    · rw [hf]
  · intro m hm
    unfold MovieModel.Get at hm
    split at hm
    · exact absurd hm (by simp)
    · cases hf : db.find? (fun r => r.ID == id) with
      | none => rw [hf] at hm; exact absurd hm (by simp)
      | some r =>
        rw [hf] at hm
        have hp := List.find?_some hf
        have hmem := List.mem_of_find?_eq_some hf
        simp only [Except.ok.injEq] at hm
        subst hm
        exact ⟨hmem, by simpa using hp⟩
  · intro hge e
    have : ¬ id < 1 := by omega
    simp [MovieModel.Get, this]
  · intro hge ⟨r, hr, hrid⟩
    have hlt : ¬ id < 1 := by omega
    have hsome : (db.find? (fun x => x.ID == id)).isSome := by
      rw [List.find?_isSome]
      exact ⟨r, hr, by simp [hrid]⟩
    obtain ⟨r0, hf⟩ := Option.isSome_iff_exists.mp hsome
    refine ⟨r0, ?_, List.mem_of_find?_eq_some hf, by simpa using List.find?_some hf⟩
    unfold MovieModel.Get
    simp only [hlt, if_false]
    rw [hf]

/-- C4 witness: on a one-row table, `Get 0` and `Get 2` are not found,
`Get 1` succeeds and returns the stored row, and a driver failure on
`Get 1` surfaces as a generic error. -/
theorem get_spec_witness :
    MovieModel.Get [(⟨1, 7, "T", 2000, 100, some ["drama"], 3⟩ : Movie)] 0 none =
      .error .recordNotFound ∧
    MovieModel.Get [(⟨1, 7, "T", 2000, 100, some ["drama"], 3⟩ : Movie)] 2 none =
      .error .recordNotFound ∧
    ((⟨1, 7, "T", 2000, 100, some ["drama"], 3⟩ : Movie) ∈
      [(⟨1, 7, "T", 2000, 100, some ["drama"], 3⟩ : Movie)] ∧
      (⟨1, 7, "T", 2000, 100, some ["drama"], 3⟩ : Movie).ID = 1) ∧
    MovieModel.Get [(⟨1, 7, "T", 2000, 100, some ["drama"], 3⟩ : Movie)] 1 (some "down") =
      .error (.generic "down") ∧
    (∃ m, MovieModel.Get [(⟨1, 7, "T", 2000, 100, some ["drama"], 3⟩ : Movie)] 1 none =
      .ok m ∧ m ∈ [(⟨1, 7, "T", 2000, 100, some ["drama"], 3⟩ : Movie)] ∧ m.ID = 1) :=
  ⟨(get_spec [⟨1, 7, "T", 2000, 100, some ["drama"], 3⟩] 0).1 (by decide) none,
   (get_spec [⟨1, 7, "T", 2000, 100, some ["drama"], 3⟩] 2).2.1 (by decide),
   (get_spec [⟨1, 7, "T", 2000, 100, some ["drama"], 3⟩] 1).2.2.1
     ⟨1, 7, "T", 2000, 100, some ["drama"], 3⟩ rfl,
   (get_spec [⟨1, 7, "T", 2000, 100, some ["drama"], 3⟩] 1).2.2.2.1 (by decide) "down",
   (get_spec [⟨1, 7, "T", 2000, 100, some ["drama"], 3⟩] 1).2.2.2.2 (by decide)
     ⟨⟨1, 7, "T", 2000, 100, some ["drama"], 3⟩, by decide, by decide⟩⟩

/-- C5: `MovieModel.Delete` fails with `ErrRecordNotFound` for `id < 1` —
without a storage round trip, so even a failing driver is never consulted —
and when the delete affects zero rows; when a matching row exists it
succeeds returning no error, and afterwards the id is no longer resolvable
by `Get`, which reports `ErrRecordNotFound` on the resulting table. -/
theorem delete_spec (db : DB) (id : Int) :
    (id < 1 → ∀ fail, MovieModel.Delete db id fail = (some .recordNotFound, db)) ∧
    ((∀ r ∈ db, r.ID ≠ id) → MovieModel.Delete db id none = (some .recordNotFound, db)) ∧
    (1 ≤ id → (∃ r ∈ db, r.ID = id) →
      (MovieModel.Delete db id none).1 = none ∧
      MovieModel.Get (MovieModel.Delete db id none).2 id none = .error .recordNotFound) := by
  refine ⟨?_, ?_, ?_⟩
  · intro hlt fail
    simp [MovieModel.Delete, hlt]
  · intro hnone
    have hfull : db.filter (fun r => !(r.ID == id)) = db := by
      rw [List.filter_eq_self]
      intro a ha
      simpa using hnone a ha
    unfold MovieModel.Delete
    split
    · rfl
    · simp [hfull]
  · intro hge ⟨r, hr, hrid⟩
    have hlt : ¬ id < 1 := by omega
    have hshrink : (db.filter (fun r => !(r.ID == id))).length < db.length := by
      apply List.length_filter_lt_length_iff_exists.mpr
      exact ⟨r, hr, by simp [hrid]⟩
    have hcount : ¬ (db.length - (db.filter (fun r => !(r.ID == id))).length == 0) = true := by
      simp only [beq_iff_eq]
      omega
    constructor
    · unfold MovieModel.Delete
      simp only [hlt, if_false]
      rw [if_neg hcount]
    · have hdb2 : (MovieModel.Delete db id none).2 = db.filter (fun r => !(r.ID == id)) := by
        unfold MovieModel.Delete
        simp only [hlt, if_false]
        rw [if_neg hcount]
      rw [hdb2]
      have hf : (db.filter (fun r => !(r.ID == id))).find? (fun r => r.ID == id) = none := by
        rw [List.find?_eq_none]
        intro x hx
        have := List.of_mem_filter hx
        simpa using this
      unfold MovieModel.Get
      simp only [hlt, if_false]
      rw [hf]

/-- C5 witness: on a one-row table, `Delete 0` and `Delete 2` are not
found and leave the table unchanged, while `Delete 1` succeeds and the
subsequent `Get 1` on the resulting table is not found. -/
theorem delete_spec_witness :
    MovieModel.Delete [(⟨1, 7, "T", 2000, 100, some ["drama"], 3⟩ : Movie)] 0 none =
      (some .recordNotFound, [(⟨1, 7, "T", 2000, 100, some ["drama"], 3⟩ : Movie)]) ∧
    MovieModel.Delete [(⟨1, 7, "T", 2000, 100, some ["drama"], 3⟩ : Movie)] 2 none =
      (some .recordNotFound, [(⟨1, 7, "T", 2000, 100, some ["drama"], 3⟩ : Movie)]) ∧
    ((MovieModel.Delete [(⟨1, 7, "T", 2000, 100, some ["drama"], 3⟩ : Movie)] 1 none).1 = none ∧
      MovieModel.Get
        (MovieModel.Delete [(⟨1, 7, "T", 2000, 100, some ["drama"], 3⟩ : Movie)] 1 none).2
        1 none = .error .recordNotFound) :=
  ⟨(delete_spec [⟨1, 7, "T", 2000, 100, some ["drama"], 3⟩] 0).1 (by decide) none,
   (delete_spec [⟨1, 7, "T", 2000, 100, some ["drama"], 3⟩] 2).2.1 (by decide),
   (delete_spec [⟨1, 7, "T", 2000, 100, some ["drama"], 3⟩] 1).2.2 (by decide)
     ⟨⟨1, 7, "T", 2000, 100, some ["drama"], 3⟩, by decide, by decide⟩⟩

instance : IsTotal Movie (fun a b => a.ID ≤ b.ID) :=
  ⟨fun a b => Int.le_total a.ID b.ID⟩

instance : IsTrans Movie (fun a b => a.ID ≤ b.ID) :=
  ⟨fun _ _ _ h1 h2 => le_trans h1 h2⟩

/-- C8: `MovieModel.GetAll` ignores the title, genre and paging arguments
entirely — for every choice of them its result is the same non-nil slice
holding all stored rows ordered by id ascending (a permutation of the
table, sorted by `ID`); with no rows that slice is empty but still
non-nil, and no error is returned; a driver failure surfaces as a generic
error. -/
theorem getAll_ignores_filters_returns_all (db : DB) (title : String)
    (genres : Option (List String)) (filters : Filters) :
    MovieModel.GetAll db title genres filters none = .ok ⟨false, orderById db⟩ ∧
    (orderById db).Perm db ∧
    List.Sorted (fun a b : Movie => a.ID ≤ b.ID) (orderById db) ∧
    (∀ e, MovieModel.GetAll db title genres filters (some e) = .error (.generic e)) :=
  ⟨rfl, List.perm_insertionSort _ db, List.sorted_insertionSort _ db, fun _ => rfl⟩

/-- C9: every `MockMovieModel` operation is a success-returning no-op:
`Insert` and `Update` return `nil` without mutating the movie, `Get`
returns a `nil` movie with a `nil` error for every id, `Delete` returns
`nil` for every id — so a caller of the mock never observes
`editConflict` or `recordNotFound`. -/
theorem mock_operations_are_noops (movie : Movie) (id : Int) :
    MockMovieModel.Insert movie = (none, movie) ∧
    MockMovieModel.Update movie = (none, movie) ∧
    MockMovieModel.Get id = (none, none) ∧
    MockMovieModel.Delete id = none ∧
    (MockMovieModel.Insert movie).1 ≠ some MovieError.editConflict ∧
    (MockMovieModel.Update movie).1 ≠ some MovieError.editConflict ∧
    (MockMovieModel.Get id).2 ≠ some MovieError.recordNotFound ∧
    MockMovieModel.Delete id ≠ some MovieError.recordNotFound ∧
    MockMovieModel.Delete id ≠ some MovieError.editConflict :=
  ⟨rfl, rfl, rfl, rfl, Option.noConfusion, Option.noConfusion, Option.noConfusion,
   Option.noConfusion, Option.noConfusion⟩

/-- C10: `MovieModel.Update` has no `id < 1` short-circuit: with an id below
1 it still reaches storage — a failing driver is consulted and its generic
error surfaced, where `Get` and `Delete` on the same id short-circuit to
`recordNotFound` without consulting it — and when the table holds only ids
≥ 1 the statement matches zero rows, so `Update` fails with
`editConflict`, not `recordNotFound`: through `Update` alone a
non-existent row is indistinguishable from a version conflict. -/
theorem update_has_no_id_shortCircuit (db : DB) (m : Movie) (e : String)
    (hlt : m.ID < 1) :
    MovieModel.Update db m (some e) = (some (.generic e), m, db) ∧
    MovieModel.Get db m.ID (some e) = .error .recordNotFound ∧
    MovieModel.Delete db m.ID (some e) = (some .recordNotFound, db) ∧
    ((∀ r ∈ db, 1 ≤ r.ID) →
      MovieModel.Update db m none = (some .editConflict, m, db) ∧
      MovieError.editConflict ≠ MovieError.recordNotFound) := by
  refine ⟨rfl, by simp [MovieModel.Get, hlt], by simp [MovieModel.Delete, hlt], ?_⟩
  intro hpos
  refine ⟨?_, by decide⟩
  have hf : db.find? (fun r => r.ID == m.ID && r.Version == m.Version) = none := by
    rw [List.find?_eq_none]
    intro x hx
    have := hpos x hx
    simp only [Bool.and_eq_true, beq_iff_eq, not_and]
    intro hxid
    omega
  unfold MovieModel.Update
  rw [hf]

/-- C10 witness: with the table holding only id 1 and an update carrying
id 0, the driver failure surfaces through `Update` but not through `Get` or
`Delete`, and without a driver failure `Update` reports `editConflict`. -/
theorem update_has_no_id_shortCircuit_witness :
    MovieModel.Update [(⟨1, 7, "T", 2000, 100, some ["drama"], 3⟩ : Movie)]
      ⟨0, 0, "U", 2001, 101, some ["war"], 3⟩ (some "down") =
      (some (.generic "down"), ⟨0, 0, "U", 2001, 101, some ["war"], 3⟩,
        [(⟨1, 7, "T", 2000, 100, some ["drama"], 3⟩ : Movie)]) ∧
    MovieModel.Get [(⟨1, 7, "T", 2000, 100, some ["drama"], 3⟩ : Movie)]
      (⟨0, 0, "U", 2001, 101, some ["war"], 3⟩ : Movie).ID (some "down") =
      .error .recordNotFound ∧
    MovieModel.Delete [(⟨1, 7, "T", 2000, 100, some ["drama"], 3⟩ : Movie)]
      (⟨0, 0, "U", 2001, 101, some ["war"], 3⟩ : Movie).ID (some "down") =
      (some .recordNotFound, [(⟨1, 7, "T", 2000, 100, some ["drama"], 3⟩ : Movie)]) ∧
    ((∀ r ∈ [(⟨1, 7, "T", 2000, 100, some ["drama"], 3⟩ : Movie)], 1 ≤ r.ID) →
      MovieModel.Update [(⟨1, 7, "T", 2000, 100, some ["drama"], 3⟩ : Movie)]
        ⟨0, 0, "U", 2001, 101, some ["war"], 3⟩ none =
        (some .editConflict, ⟨0, 0, "U", 2001, 101, some ["war"], 3⟩,
          [(⟨1, 7, "T", 2000, 100, some ["drama"], 3⟩ : Movie)]) ∧
      MovieError.editConflict ≠ MovieError.recordNotFound) :=
  update_has_no_id_shortCircuit
    [⟨1, 7, "T", 2000, 100, some ["drama"], 3⟩]
    ⟨0, 0, "U", 2001, 101, some ["war"], 3⟩
    "down" (by decide)
